import Mathlib

/-!
Verification of the `aodn/ocean-current-api` monitoring scripts
(`scripts/trigger_fatal_log.py` and `scripts/test_local_auth.py`).

The two Python scripts are sequential programs whose only effects are
HTTP requests (via the `requests` library), reads of two config files,
one environment variable, and a process exit code.  We embed them
shallowly: the network is an oracle `Request → HttpResult`, the file
system is an oracle `String → Option (Option String)`, and each script
function is a pure Lean function returning its result together with the
trace of requests it issued.
-/

namespace OC

/-- A JSON object as the scripts observe it: an association list from
keys to (string-rendered) values; `dict.get` is lookup. -/
abbrev JsonObj := List (String × String)

/-- Python `dict.get(k)`: the value at `k`, or `None` when absent. -/
def jget (j : JsonObj) (k : String) : Option String :=
  (j.find? (fun p => p.1 == k)).map Prod.snd

/-- Python `dict.get(k, d)`: the value at `k`, or default `d` when absent. -/
def jgetD (j : JsonObj) (k : String) (d : String) : String :=
  (jget j k).getD d

/-- An HTTP response body as the scripts observe it: the raw text
(`response.text`) paired with the result of `response.json()` —
`some` a parsed object when the text is valid JSON, `none` when
`response.json()` would raise a decode error. -/
structure RespBody where
  text : String
  json : Option JsonObj
deriving DecidableEq

/-- Outcome of one `requests` call, as the scripts' exception handlers
distinguish them.
`timeout` is `requests.exceptions.Timeout` (this includes
`ConnectTimeout`, which subclasses both `Timeout` and `ConnectionError`
but is caught by the scripts' `Timeout` handlers, listed first);
`connectionError` is a non-timeout `requests.exceptions.ConnectionError`
such as connection refused; `otherError` is any other
`requests.exceptions.RequestException`. -/
inductive HttpResult where
  | response (status : Nat) (body : RespBody)
  | timeout
  | connectionError
  | otherError (msg : String)
deriving DecidableEq

/-- One HTTP request issued by the scripts, carrying the arguments the
source passes to `requests`:
`imdsToken` is the IMDSv2 token `PUT` with its
`X-aws-ec2-metadata-token-ttl-seconds` header value and timeout;
`imdsPkcs7` is the trigger script's PKCS7 `GET` with its optional
`X-aws-ec2-metadata-token` header and timeout;
`harnessPkcs7` is the test harness's PKCS7 `GET` with its `User-Agent`
header and timeout;
`post` is a JSON `POST` (`Content-Type: application/json`) with its URL,
body and timeout. -/
inductive Request where
  | imdsToken (ttlHeader : Nat) (timeout : Nat)
  | imdsPkcs7 (tokenHeader : Option String) (timeout : Nat)
  | harnessPkcs7 (userAgent : String) (timeout : Nat)
  | post (url : String) (body : JsonObj) (timeout : Nat)
deriving DecidableEq

/-- The network oracle: what each request would return. -/
abbrev Net := Request → HttpResult

/-- Whether a request is a `POST` (the only monitoring-endpoint call). -/
def Request.isPost : Request → Bool
  | .post _ _ _ => true
  | _ => false

/-- The file-system oracle for the two config paths:
`none` = the path does not exist (`os.path.exists` is false);
`some none` = the path exists but opening/reading raises;
`some (some c)` = reading yields content `c`. -/
abbrev FS := String → Option (Option String)

/-- A UTC wall-clock instant, as `datetime.utcnow()` exposes it. -/
structure DateTime where
  year : Nat
  month : Nat
  day : Nat
  hour : Nat
  minute : Nat
  second : Nat
deriving DecidableEq

/-- Zero-pad a number to two digits (strftime `%m`/`%d`/`%H`/`%M`/`%S`). -/
def pad2 (n : Nat) : String :=
  if n < 10 then "0" ++ toString n else toString n

/-- Zero-pad a number to four digits (strftime `%Y`). -/
def pad4 (n : Nat) : String :=
  if n < 10 then "000" ++ toString n
  else if n < 100 then "00" ++ toString n
  else if n < 1000 then "0" ++ toString n
  else toString n

/-- `datetime.utcnow().strftime("%Y-%m-%dT%H:%M:%SZ")`. -/
def strftime_utc (t : DateTime) : String :=
  pad4 t.year ++ "-" ++ pad2 t.month ++ "-" ++ pad2 t.day ++ "T" ++
    pad2 t.hour ++ ":" ++ pad2 t.minute ++ ":" ++ pad2 t.second ++ "Z"

/-- Python `str.strip()`: drop leading and trailing whitespace.
(`Char.isWhitespace` covers the ASCII whitespace the metadata service
and config files can contain.) -/
def strip (s : String) : String :=
  String.mk (((s.data.dropWhile Char.isWhitespace).reverse.dropWhile
    Char.isWhitespace).reverse)

/-- Python truthiness on an optional string (`if s:` with `s` either
`None` or a `str`): true exactly for a non-empty string. -/
def truthy : Option String → Bool
  | none => false
  | some s => s ≠ ""

/-- Python `", ".join(parts)`. -/
def join_comma : List String → String
  | [] => ""
  | [x] => x
  | x :: y :: xs => x ++ ", " ++ join_comma (y :: xs)

/-! ## `scripts/trigger_fatal_log.py` -/

/-- `METADATA_TIMEOUT = 2` (seconds). -/
def METADATA_TIMEOUT : Nat := 2

/-- `IMDS_TOKEN_TTL_SECONDS = 21600` (6 hours). -/
def IMDS_TOKEN_TTL_SECONDS : Nat := 21600

/-- First entry of `config_locations`: `/etc/imos/oc_api_endpoint.conf`. -/
def SYSTEM_CONFIG_PATH : String := "/etc/imos/oc_api_endpoint.conf"

/-- Second entry of `config_locations`:
`os.path.join(os.path.dirname(__file__), "oc_api_endpoint.conf")`. -/
def LOCAL_CONFIG_PATH : String := "oc_api_endpoint.conf"

/-- One iteration of the loop in `_load_api_endpoint`: if the path
exists, try to read it; on a read error fall through (`except: pass`);
strip the content and accept it only when non-empty. -/
def read_config (fs : FS) (path : String) : Option String :=
  match fs path with
  | none => none
  | some none => none
  | some (some c) =>
    let endpoint := strip c
    if endpoint = "" then none else some endpoint

/-- `_load_api_endpoint()`: try the system config path, then the local
config path, returning the first non-empty readable content; fall back
to `os.getenv("OC_API_ENDPOINT")`. -/
def _load_api_endpoint (fs : FS) (env : Option String) : Option String :=
  match read_config fs SYSTEM_CONFIG_PATH with
  | some e => some e
  | none =>
    match read_config fs LOCAL_CONFIG_PATH with
    | some e => some e
    | none => env

/-- Result of `get_imds_token()`: the token (or `None`), and whether the
`WARNING: Failed to get IMDSv2 token, falling back to IMDSv1` notice was
printed to stderr. -/
structure TokenResult where
  token : Option String
  warned : Bool
deriving DecidableEq

/-- `get_imds_token()`: `PUT` the token URL with the TTL header and the
metadata timeout; `raise_for_status()` turns a status ≥ 400 into an
`HTTPError`; every `RequestException` is caught, a warning is printed,
and `None` is returned. -/
def get_imds_token (net : Net) : TokenResult × List Request :=
  let req := Request.imdsToken IMDS_TOKEN_TTL_SECONDS METADATA_TIMEOUT
  match net req with
  | .response s b => if s < 400 then (⟨some b.text, false⟩, [req]) else (⟨none, true⟩, [req])
  | _ => (⟨none, true⟩, [req])

/-- Outcome of `fetch_instance_identity()`.  The source returns the
PKCS7 text on success and `None` on failure; the two failure returns are
distinguished by which handler ran: `metadataUnavailable` is the
`except requests.exceptions.Timeout` branch (`Timeout fetching EC2
metadata. Are you running on an EC2 instance?`), `metadataError` the
generic `except requests.exceptions.RequestException` branch (`Failed to
fetch EC2 metadata`). -/
inductive FetchOutcome where
  | ok (pkcs7 : String)
  | metadataUnavailable
  | metadataError
deriving DecidableEq

/-- `fetch_instance_identity()`: get the IMDSv2 token (its failure is
swallowed inside `get_imds_token`), `GET` the PKCS7 URL with the token
header when a token was obtained, `raise_for_status()`, and return
`response.text` unmodified.  A `Timeout` (including `ConnectTimeout`)
hits the first handler; `HTTPError` from a status ≥ 400, a non-timeout
`ConnectionError` (e.g. connection refused) and any other
`RequestException` hit the generic second handler. -/
def fetch_instance_identity (net : Net) : FetchOutcome × List Request :=
  let tk := get_imds_token net
  let req := Request.imdsPkcs7 tk.1.token METADATA_TIMEOUT
  let outcome :=
    match net req with
    | .response s b => if s < 400 then FetchOutcome.ok b.text else FetchOutcome.metadataError
    | .timeout => FetchOutcome.metadataUnavailable
    | .connectionError => FetchOutcome.metadataError
    | .otherError _ => FetchOutcome.metadataError
  (outcome, tk.2 ++ [req])

/-- The payload dict built inside `send_fatal_log`, with the ambient
facts it reads (`os.path.basename(__file__)`, `os.getpid()`,
`sys.version.split()[0]`, `datetime.utcnow()`) passed as parameters.
Keys appear in the dict-literal order of the source. -/
def build_payload (error_message pkcs7 : String)
    (source_type additional_context : Option String)
    (now : DateTime) (script_name : String) (pid : Nat)
    (python_version : String) : JsonObj :=
  let source :=
    if truthy source_type then "trigger-fatal-log/" ++ source_type.getD ""
    else "trigger-fatal-log"
  let base := ["script=" ++ script_name, "pid=" ++ toString pid,
    "python=" ++ python_version]
  let context_parts :=
    if truthy additional_context then base ++ [additional_context.getD ""] else base
  [("pkcs7", pkcs7),
   ("timestamp", strftime_utc now),
   ("errorMessage", error_message),
   ("source", source),
   ("context", join_comma context_parts)]

/-- What `send_fatal_log` reports to the operator.
`success` carries the `status` and `message` fields read from the parsed
200 response body; `httpFailure` carries the non-200 status and the body
detail printed (`message` field of the JSON body, defaulted to
`Unknown error`, or the raw text when the body is not JSON);
`timeoutFailure` is the `Timeout` handler; `requestFailure` is the
generic `RequestException` handler. -/
inductive SendOutcome where
  | success (status : Option String) (message : Option String)
  | httpFailure (status : Nat) (detail : String)
  | timeoutFailure
  | requestFailure (msg : String)
deriving DecidableEq

/-- The boolean `send_fatal_log` returns: `True` exactly on the
`status_code == 200`, body-parsed path. -/
def send_success : SendOutcome → Bool
  | .success _ _ => true
  | _ => false

/-- `send_fatal_log(...)`: one `POST` of the payload to the endpoint
with a 10-second timeout.  On status 200 the body is parsed by
`response.json()`; when that raises (non-JSON body) the exception is a
`requests.exceptions.JSONDecodeError`, a `RequestException` subclass
(requests ≥ 2.27), so the outer generic handler catches it and the
function returns `False`.  On any other status the error detail is the
body's `message` field (default `Unknown error`) or, when the body is
not JSON, the raw text (the inner bare `except`). -/
def send_fatal_log (endpoint : String) (payload : JsonObj) (net : Net) :
    SendOutcome × List Request :=
  let req := Request.post endpoint payload 10
  let outcome :=
    match net req with
    | .response status body =>
      if status = 200 then
        match body.json with
        | some j => SendOutcome.success (jget j "status") (jget j "message")
        | none => SendOutcome.requestFailure "json-decode-error"
      else
        match body.json with
        | some j => SendOutcome.httpFailure status (jgetD j "message" "Unknown error")
        | none => SendOutcome.httpFailure status body.text
    | .timeout => SendOutcome.timeoutFailure
    | .connectionError => SendOutcome.requestFailure "connection-error"
    | .otherError m => SendOutcome.requestFailure m
  (outcome, [req])

/-- `main()` of `trigger_fatal_log.py`, returning the process exit code
and the trace of network requests.  Order of checks as in the source:
the module-level `OC_API_ENDPOINT` (resolved by `_load_api_endpoint`)
must be truthy, then `len(sys.argv) >= 2`; then the identity is fetched,
a falsy (`None` or empty) PKCS7 exits 1, and otherwise the exit code is
0 exactly when `send_fatal_log` returned `True`. -/
def trigger_main (fs : FS) (env : Option String) (argv : List String)
    (net : Net) (now : DateTime) (script_name : String) (pid : Nat)
    (python_version : String) : Nat × List Request :=
  match _load_api_endpoint fs env with
  | none => (1, [])
  | some ep =>
    if ep = "" then (1, [])
    else if argv.length < 2 then (1, [])
    else
      let error_message := argv.getD 1 ""
      let source_type := if argv.length > 2 then some (argv.getD 2 "") else none
      let additional_context := if argv.length > 3 then some (argv.getD 3 "") else none
      let fid := fetch_instance_identity net
      match fid.1 with
      | FetchOutcome.ok p =>
        if p = "" then (1, fid.2)
        else
          let payload := build_payload error_message p source_type additional_context
            now script_name pid python_version
          let snd := send_fatal_log ep payload net
          (if send_success snd.1 then 0 else 1, fid.2 ++ snd.2)
      | _ => (1, fid.2)

/-! ## `scripts/test_local_auth.py` -/

/-- `LOCAL_URL` of the test harness. -/
def LOCAL_URL : String := "http://localhost:8080/api/v1/monitoring/fatal-log"

/-- `fetch_ec2_identity(use_ec2_metadata)`: without the flag, return
`None` immediately (no request).  With it, `GET` the PKCS7 URL with a
2-second timeout and an `aws-cli/2.0` user agent; any status other than
exactly 200 yields `None`, and on 200 the body text is returned
stripped (`.strip()`).  `Timeout`, `ConnectionError` and any other
exception all yield `None`. -/
def fetch_ec2_identity (use_ec2_metadata : Bool) (net : Net) :
    Option String × List Request :=
  if use_ec2_metadata = false then (none, [])
  else
    let req := Request.harnessPkcs7 "aws-cli/2.0" 2
    match net req with
    | .response s b => if s = 200 then (some (strip b.text), [req]) else (none, [req])
    | _ => (none, [req])

/-- `test_without_auth()` (assertion 1): `POST` a body with only
`errorMessage`; pass exactly when the status is 401; any exception is a
failure. -/
def test_without_auth (net : Net) : Bool × List Request :=
  let req := Request.post LOCAL_URL [("errorMessage", "Test without auth")] 10
  let passed :=
    match net req with
    | .response s _ => s == 401
    | _ => false
  (passed, [req])

/-- `test_with_ec2_identity(pkcs7_signature)` (assertion 2): `POST` a
body with `pkcs7`, `timestamp` and `errorMessage`; pass exactly when the
status is 200; any exception is a failure. -/
def test_with_ec2_identity (pkcs7_signature : String) (now : DateTime)
    (net : Net) : Bool × List Request :=
  let req := Request.post LOCAL_URL
    [("pkcs7", pkcs7_signature),
     ("timestamp", strftime_utc now),
     ("errorMessage", "Local EC2 identity test")] 10
  let passed :=
    match net req with
    | .response s _ => s == 200
    | _ => false
  (passed, [req])

/-- `test_with_missing_fields()` (assertion 3): the single test case
`POST`s a body omitting `pkcs7`; `all_passed` stays true exactly when
the status is 401; any exception is a failure. -/
def test_with_missing_fields (now : DateTime) (net : Net) : Bool × List Request :=
  let req := Request.post LOCAL_URL
    [("timestamp", strftime_utc now), ("errorMessage", "Test")] 10
  let passed :=
    match net req with
    | .response s _ => s == 401
    | _ => false
  (passed, [req])

/-- Observable result of one run of the harness's `main()`:
`assertion2 = none` models `ec2_validation_passed = None` (skipped). -/
structure HarnessResult where
  exitCode : Nat
  assertion1 : Bool
  assertion2 : Option Bool
  assertion3 : Bool
  trace : List Request
deriving DecidableEq

/-- `main()` of `test_local_auth.py`: run assertion 1, fetch the
identity (live only when `--use-ec2-metadata` is in `sys.argv`), run
assertion 2 only when a signature was obtained, run assertion 3;
`all_passed = auth_enforcement_passed and fields_validation_passed`, and
the exit code is 0 exactly when `all_passed`. -/
def test_local_auth_main (argv : List String) (now : DateTime) (net : Net) :
    HarnessResult :=
  let use_ec2_metadata := argv.contains "--use-ec2-metadata"
  let t1 := test_without_auth net
  let fid := fetch_ec2_identity use_ec2_metadata net
  let t2 :=
    match fid.1 with
    | some sig =>
      let r := test_with_ec2_identity sig now net
      (some r.1, r.2)
    | none => (none, [])
  let t3 := test_with_missing_fields now net
  let all_passed := t1.1 && t3.1
  ⟨if all_passed then 0 else 1, t1.1, t2.1, t3.1,
    t1.2 ++ fid.2 ++ t2.2 ++ t3.2⟩

/-! ## Helper lemmas -/

/-- `get_imds_token` always issues exactly the one token request. -/
lemma get_imds_token_trace (net : Net) :
    (get_imds_token net).2 =
      [Request.imdsToken IMDS_TOKEN_TTL_SECONDS METADATA_TIMEOUT] := by
  rcases h : net (Request.imdsToken IMDS_TOKEN_TTL_SECONDS METADATA_TIMEOUT)
    with ⟨s, b⟩ | _ | _ | m <;>
    simp [get_imds_token, h]
  split <;> rfl

/-- The trace of `fetch_instance_identity` is the token request followed
by the PKCS7 request. -/
lemma fetch_instance_identity_trace (net : Net) :
    (fetch_instance_identity net).2 =
      [Request.imdsToken IMDS_TOKEN_TTL_SECONDS METADATA_TIMEOUT,
       Request.imdsPkcs7 (get_imds_token net).1.token METADATA_TIMEOUT] := by
  have h : (fetch_instance_identity net).2 =
      (get_imds_token net).2 ++
        [Request.imdsPkcs7 (get_imds_token net).1.token METADATA_TIMEOUT] := rfl
  rw [h, get_imds_token_trace]
  rfl

/-- No metadata request is a `POST`. -/
lemma fetch_instance_identity_no_post (net : Net) :
    ∀ r ∈ (fetch_instance_identity net).2, r.isPost = false := by
  rw [fetch_instance_identity_trace]
  intro r hr
  simp only [List.mem_cons, List.not_mem_nil, or_false] at hr
  rcases hr with rfl | rfl <;> rfl

/-! ## Claims -/

/-- C2: when no readable non-empty config file is present at either path
and the environment variable is unset, the sender exits with code 1 and
the request trace is empty — no metadata request and no monitoring POST
is attempted. -/
theorem c2_no_config_no_network (fs : FS) (env : Option String)
    (argv : List String) (net : Net) (now : DateTime) (script_name : String)
    (pid : Nat) (python_version : String)
    (hsys : read_config fs SYSTEM_CONFIG_PATH = none)
    (hloc : read_config fs LOCAL_CONFIG_PATH = none)
    (henv : env = none) :
    trigger_main fs env argv net now script_name pid python_version = (1, []) := by
  unfold trigger_main _load_api_endpoint
  rw [hsys, hloc, henv]

/-- Witness for C2 at a concrete empty environment. -/
theorem c2_no_config_no_network_witness :
    trigger_main (fun _ => none) none ["trigger_fatal_log.py", "disk full"]
      (fun _ => HttpResult.timeout) ⟨2024, 1, 2, 3, 4, 5⟩
      "trigger_fatal_log.py" 42 "3.8.10" = (1, []) :=
  c2_no_config_no_network (fun _ => none) none
    ["trigger_fatal_log.py", "disk full"] (fun _ => HttpResult.timeout)
    ⟨2024, 1, 2, 3, 4, 5⟩ "trigger_fatal_log.py" 42 "3.8.10" rfl rfl rfl

/-- C5: endpoint resolution precedence.  A successfully read system
config file always wins; the local config file is used only when the
system one yields nothing; the environment variable is the final
fallback when neither file yields a value; and a file yields a value
exactly when it exists, is readable, and its whitespace-stripped content
is non-empty — that stripped content is the value. -/
theorem c5_endpoint_precedence (fs : FS) (env : Option String) :
    (∀ e, read_config fs SYSTEM_CONFIG_PATH = some e →
      _load_api_endpoint fs env = some e) ∧
    (read_config fs SYSTEM_CONFIG_PATH = none →
      ∀ e, read_config fs LOCAL_CONFIG_PATH = some e →
        _load_api_endpoint fs env = some e) ∧
    (read_config fs SYSTEM_CONFIG_PATH = none →
      read_config fs LOCAL_CONFIG_PATH = none →
        _load_api_endpoint fs env = env) ∧
    (∀ p e, read_config fs p = some e →
      ∃ c, fs p = some (some c) ∧ e = strip c ∧ strip c ≠ "") := by
  refine ⟨?_, ?_, ?_, ?_⟩
  · intro e h
    unfold _load_api_endpoint
    rw [h]
  · intro h1 e h2
    unfold _load_api_endpoint
    rw [h1, h2]
  · intro h1 h2
    unfold _load_api_endpoint
    rw [h1, h2]
  · intro p e h
    unfold read_config at h
    cases hfs : fs p with
    | none => rw [hfs] at h; exact absurd h (by simp)
    | some oc =>
      cases oc with
      | none => rw [hfs] at h; exact absurd h (by simp)
      | some c =>
        rw [hfs] at h
        simp only at h
        by_cases hc : strip c = ""
        · rw [if_pos hc] at h; exact absurd h (by simp)
        · rw [if_neg hc] at h
          exact ⟨c, rfl, (Option.some_inj.mp h).symm, hc⟩

/-- Witness for C5: with both config files present and non-empty, the
system file's content is the resolved endpoint. -/
theorem c5_endpoint_precedence_witness :
    _load_api_endpoint
      (fun p => if p = SYSTEM_CONFIG_PATH then some (some "https://sys.example\n")
        else if p = LOCAL_CONFIG_PATH then some (some "https://local.example\n")
        else none)
      (some "https://env.example") = some "https://sys.example" :=
  (c5_endpoint_precedence
    (fun p => if p = SYSTEM_CONFIG_PATH then some (some "https://sys.example\n")
      else if p = LOCAL_CONFIG_PATH then some (some "https://local.example\n")
      else none)
    (some "https://env.example")).1 "https://sys.example" (by rfl)

/-- C7: whenever the metadata fetch fails (either failure kind, e.g. a
timeout), `main` exits with code 1 and no monitoring POST appears in the
run's request trace. -/
theorem c7_fetch_failure_no_post (fs : FS) (env : Option String)
    (argv : List String) (net : Net) (now : DateTime) (script_name : String)
    (pid : Nat) (python_version : String)
    (h : (fetch_instance_identity net).1 = FetchOutcome.metadataUnavailable ∨
      (fetch_instance_identity net).1 = FetchOutcome.metadataError) :
    (trigger_main fs env argv net now script_name pid python_version).1 = 1 ∧
    ∀ r ∈ (trigger_main fs env argv net now script_name pid python_version).2,
      r.isPost = false := by
  rcases h with h | h <;>
    cases hep : _load_api_endpoint fs env <;>
    simp only [trigger_main, hep, h] <;>
    (try split_ifs) <;>
    refine ⟨by simp, ?_⟩ <;>
    first
      | exact fetch_instance_identity_no_post net
      | simp

/-- Witness for C7: a metadata service that times out makes the run
exit 1 without any POST. -/
theorem c7_fetch_failure_no_post_witness :
    (trigger_main (fun _ => none) (some "http://e") ["trigger_fatal_log.py", "m"]
      (fun _ => HttpResult.timeout) ⟨2024, 1, 2, 3, 4, 5⟩
      "trigger_fatal_log.py" 42 "3.8.10").1 = 1 ∧
    ∀ r ∈ (trigger_main (fun _ => none) (some "http://e")
      ["trigger_fatal_log.py", "m"] (fun _ => HttpResult.timeout)
      ⟨2024, 1, 2, 3, 4, 5⟩ "trigger_fatal_log.py" 42 "3.8.10").2,
      r.isPost = false :=
  c7_fetch_failure_no_post (fun _ => none) (some "http://e")
    ["trigger_fatal_log.py", "m"] (fun _ => HttpResult.timeout)
    ⟨2024, 1, 2, 3, 4, 5⟩ "trigger_fatal_log.py" 42 "3.8.10" (Or.inl rfl)

/-- C9: the token request carries TTL 21600 and timeout 2; on any token
failure (timeout, connection error, status ≥ 400) the result is no
token together with the printed warning; and whenever no token was
obtained, the PKCS7 request is still issued, with no token header, and a
success response there still yields a successful fetch — token failure
alone never fails the run. -/
theorem c9_token_acquisition (net : Net) :
    (get_imds_token net).2 = [Request.imdsToken 21600 2] ∧
    ((get_imds_token net).1.token = none → (get_imds_token net).1.warned = true) ∧
    (net (Request.imdsToken 21600 2) = HttpResult.timeout →
      (get_imds_token net).1 = ⟨none, true⟩) ∧
    (net (Request.imdsToken 21600 2) = HttpResult.connectionError →
      (get_imds_token net).1 = ⟨none, true⟩) ∧
    (∀ s b, net (Request.imdsToken 21600 2) = HttpResult.response s b →
      400 ≤ s → (get_imds_token net).1 = ⟨none, true⟩) ∧
    ((get_imds_token net).1.token = none →
      (fetch_instance_identity net).2 =
        [Request.imdsToken 21600 2, Request.imdsPkcs7 none 2] ∧
      ∀ s b, net (Request.imdsPkcs7 none 2) = HttpResult.response s b →
        s < 400 → (fetch_instance_identity net).1 = FetchOutcome.ok b.text) := by
  have hreq : Request.imdsToken IMDS_TOKEN_TTL_SECONDS METADATA_TIMEOUT =
      Request.imdsToken 21600 2 := rfl
  refine ⟨by rw [get_imds_token_trace]; rfl, ?_, ?_, ?_, ?_, ?_⟩
  · intro h
    unfold get_imds_token at h ⊢
    rw [hreq] at h ⊢
    rcases hn : net (Request.imdsToken 21600 2) with ⟨s, b⟩ | _ | _ | m <;>
      simp [hn] at h ⊢
    by_cases hs : s < 400
    · simp [hs] at h
    · simp [hs]
  · intro h
    simp [get_imds_token, IMDS_TOKEN_TTL_SECONDS, METADATA_TIMEOUT, h]
  · intro h
    simp [get_imds_token, IMDS_TOKEN_TTL_SECONDS, METADATA_TIMEOUT, h]
  · intro s b h hs
    simp [get_imds_token, IMDS_TOKEN_TTL_SECONDS, METADATA_TIMEOUT, h,
      Nat.not_lt.mpr hs]
  · intro h
    constructor
    · rw [fetch_instance_identity_trace, hreq, h]; rfl
    · intro s b hn hs
      have hres : (fetch_instance_identity net).1 =
          match net (Request.imdsPkcs7 (get_imds_token net).1.token
            METADATA_TIMEOUT) with
          | .response s b =>
            if s < 400 then FetchOutcome.ok b.text else FetchOutcome.metadataError
          | .timeout => FetchOutcome.metadataUnavailable
          | .connectionError => FetchOutcome.metadataError
          | .otherError _ => FetchOutcome.metadataError := rfl
      rw [hres, h]
      have hreq2 : Request.imdsPkcs7 (none : Option String) METADATA_TIMEOUT =
          Request.imdsPkcs7 none 2 := rfl
      rw [hreq2, hn]
      simp [hs]

/-- An oracle whose token endpoint times out while the PKCS7 endpoint
answers 200. -/
def tokenDownNet : Net := fun r =>
  match r with
  | Request.imdsToken _ _ => HttpResult.timeout
  | _ => HttpResult.response 200 ⟨"PK7", none⟩

/-- Witness for C9: the token request times out, the PKCS7 request
succeeds, and the fetch still returns the document. -/
theorem c9_token_acquisition_witness :
    (get_imds_token tokenDownNet).1 = (⟨none, true⟩ : TokenResult) ∧
    (fetch_instance_identity tokenDownNet).1 = FetchOutcome.ok "PK7" := by
  refine ⟨(c9_token_acquisition tokenDownNet).2.2.1 rfl, ?_⟩
  exact ((c9_token_acquisition tokenDownNet).2.2.2.2.2 rfl).2 200 ⟨"PK7", none⟩
    rfl (by decide)

/-- C8: the harness exits 0 exactly when assertion 1 (no auth → 401)
and assertion 3 (missing pkcs7 → 401) both pass, and when the
`--use-ec2-metadata` flag is absent assertion 2 is recorded as skipped
(`none`, neither pass nor fail). -/
theorem c8_exit_gating (argv : List String) (now : DateTime) (net : Net) :
    ((test_local_auth_main argv now net).exitCode = 0 ↔
      (test_local_auth_main argv now net).assertion1 = true ∧
      (test_local_auth_main argv now net).assertion3 = true) ∧
    (argv.contains "--use-ec2-metadata" = false →
      (test_local_auth_main argv now net).assertion2 = none) := by
  constructor
  · have he : (test_local_auth_main argv now net).exitCode =
        if (test_local_auth_main argv now net).assertion1 &&
           (test_local_auth_main argv now net).assertion3 then 0 else 1 := rfl
    rw [he]
    cases h1 : (test_local_auth_main argv now net).assertion1 <;>
      cases h3 : (test_local_auth_main argv now net).assertion3 <;> simp
  · intro h
    have hmem : "--use-ec2-metadata" ∉ argv := by simpa using h
    simp [test_local_auth_main, fetch_ec2_identity, hmem]

/-- An enforcing backend with no live metadata: every POST gets 401. -/
def enforcingNet : Net := fun r =>
  match r with
  | Request.post _ _ _ => HttpResult.response 401 ⟨"unauthorized", none⟩
  | _ => HttpResult.timeout

/-- Witness for C8: without the flag, against a 401-enforcing backend,
the harness exits 0 with assertion 2 skipped. -/
theorem c8_exit_gating_witness :
    (test_local_auth_main [] ⟨2024, 1, 2, 3, 4, 5⟩ enforcingNet).exitCode = 0 ∧
    (test_local_auth_main [] ⟨2024, 1, 2, 3, 4, 5⟩ enforcingNet).assertion2 =
      none :=
  ⟨(c8_exit_gating [] ⟨2024, 1, 2, 3, 4, 5⟩ enforcingNet).1.mpr ⟨rfl, rfl⟩,
   (c8_exit_gating [] ⟨2024, 1, 2, 3, 4, 5⟩ enforcingNet).2 rfl⟩

/-- C10: the harness's exit code is computed solely from assertions 1
and 3 — stated as a definitional identity over every run — so a run in
which assertion 2 ran and failed still exits 0 whenever assertions 1 and
3 passed. -/
theorem c10_assertion2_never_gates (argv : List String) (now : DateTime)
    (net : Net) :
    (test_local_auth_main argv now net).exitCode =
      (if (test_local_auth_main argv now net).assertion1 &&
          (test_local_auth_main argv now net).assertion3 then 0 else 1) ∧
    ((test_local_auth_main argv now net).assertion1 = true →
      (test_local_auth_main argv now net).assertion3 = true →
      (test_local_auth_main argv now net).assertion2 = some false →
      (test_local_auth_main argv now net).exitCode = 0) := by
  refine ⟨rfl, ?_⟩
  intro h1 h3 _
  have he : (test_local_auth_main argv now net).exitCode =
      if (test_local_auth_main argv now net).assertion1 &&
         (test_local_auth_main argv now net).assertion3 then 0 else 1 := rfl
  rw [he, h1, h3]
  rfl

/-- A backend that enforces auth (401 without identity fields) but
rejects the live signature (403 on the `pkcs7`-bearing POST), with a
live metadata service. -/
def rejectingNet : Net := fun r =>
  match r with
  | Request.harnessPkcs7 _ _ => HttpResult.response 200 ⟨"SIG", none⟩
  | Request.post _ (("pkcs7", _) :: _) _ => HttpResult.response 403 ⟨"denied", none⟩
  | Request.post _ _ _ => HttpResult.response 401 ⟨"unauthorized", none⟩
  | _ => HttpResult.timeout

/-- Witness for C10: assertion 2 runs and fails, assertions 1 and 3
pass, and the harness still exits 0. -/
theorem c10_assertion2_never_gates_witness :
    (test_local_auth_main ["--use-ec2-metadata"] ⟨2024, 1, 2, 3, 4, 5⟩
      rejectingNet).assertion2 = some false ∧
    (test_local_auth_main ["--use-ec2-metadata"] ⟨2024, 1, 2, 3, 4, 5⟩
      rejectingNet).exitCode = 0 :=
  ⟨rfl,
   (c10_assertion2_never_gates ["--use-ec2-metadata"] ⟨2024, 1, 2, 3, 4, 5⟩
     rejectingNet).2 rfl rfl rfl⟩

/-- C6, counterexample to the claim as stated: with a supplied but empty
source type (`argv` can carry `""`), the `source` field is the bare
literal, not `"trigger-fatal-log/" ++ ""`, because the source tests
`if source_type:` (truthiness), and likewise a supplied empty additional
context is not appended to `context`. -/
theorem c6_counterexample :
    jget (build_payload "disk full" "PK" (some "") (some "")
      ⟨2024, 1, 2, 3, 4, 5⟩ "trigger_fatal_log.py" 42 "3.8.10") "source" =
        some "trigger-fatal-log" ∧
    jget (build_payload "disk full" "PK" (some "") (some "")
      ⟨2024, 1, 2, 3, 4, 5⟩ "trigger_fatal_log.py" 42 "3.8.10") "source" ≠
        some ("trigger-fatal-log/" ++ "") ∧
    jget (build_payload "disk full" "PK" (some "") (some "")
      ⟨2024, 1, 2, 3, 4, 5⟩ "trigger_fatal_log.py" 42 "3.8.10") "context" =
        some "script=trigger_fatal_log.py, pid=42, python=3.8.10" := by
  refine ⟨rfl, ?_, rfl⟩
  decide

/-- C6 as amended: the payload has exactly the keys `pkcs7`,
`timestamp`, `errorMessage`, `source`, `context` in that order;
`timestamp` is the send-time clock in strftime `%Y-%m-%dT%H:%M:%SZ`
form; `source` is the bare literal when the source type is absent or
empty and `"trigger-fatal-log/<source_type>"` when it is non-empty; and
`context` comma-joins `script=`, `pid=` and `python=` parts, with a
non-empty caller context appended last. -/
theorem c6_payload_shape (error_message pkcs7 : String)
    (source_type additional_context : Option String) (now : DateTime)
    (script_name : String) (pid : Nat) (python_version : String) :
    (build_payload error_message pkcs7 source_type additional_context now
      script_name pid python_version).map Prod.fst =
      ["pkcs7", "timestamp", "errorMessage", "source", "context"] ∧
    jget (build_payload error_message pkcs7 source_type additional_context now
      script_name pid python_version) "pkcs7" = some pkcs7 ∧
    jget (build_payload error_message pkcs7 source_type additional_context now
      script_name pid python_version) "timestamp" = some (strftime_utc now) ∧
    jget (build_payload error_message pkcs7 source_type additional_context now
      script_name pid python_version) "errorMessage" = some error_message ∧
    (truthy source_type = false →
      jget (build_payload error_message pkcs7 source_type additional_context
        now script_name pid python_version) "source" =
        some "trigger-fatal-log") ∧
    (∀ s, source_type = some s → s ≠ "" →
      jget (build_payload error_message pkcs7 source_type additional_context
        now script_name pid python_version) "source" =
        some ("trigger-fatal-log/" ++ s)) ∧
    (truthy additional_context = false →
      jget (build_payload error_message pkcs7 source_type additional_context
        now script_name pid python_version) "context" =
        some ("script=" ++ script_name ++ ", " ++ "pid=" ++ toString pid ++
          ", " ++ "python=" ++ python_version)) ∧
    (∀ a, additional_context = some a → a ≠ "" →
      jget (build_payload error_message pkcs7 source_type additional_context
        now script_name pid python_version) "context" =
        some ("script=" ++ script_name ++ ", " ++ "pid=" ++ toString pid ++
          ", " ++ "python=" ++ python_version ++ ", " ++ a)) := by
  refine ⟨?_, ?_, ?_, ?_, ?_, ?_, ?_, ?_⟩
  · simp [build_payload]
  · simp [build_payload, jget]
  · simp [build_payload, jget]
  · simp [build_payload, jget]
  · intro h
    simp [build_payload, jget, h]
  · intro s hs hne
    simp [build_payload, jget, truthy, hs, hne]
  · intro h
    simp [build_payload, jget, join_comma, h]
    apply String.ext
    simp [String.data_append]
  · intro a ha hne
    simp [build_payload, jget, join_comma, truthy, ha, hne]
    apply String.ext
    simp [String.data_append]

/-- Witness for C6 at the spec's own example: message `disk full`, no
source type, no extra context. -/
theorem c6_payload_shape_witness :
    jget (build_payload "disk full" "PK" none none ⟨2024, 1, 2, 3, 4, 5⟩
      "trigger_fatal_log.py" 42 "3.8.10") "source" =
      some "trigger-fatal-log" ∧
    jget (build_payload "disk full" "PK" none none ⟨2024, 1, 2, 3, 4, 5⟩
      "trigger_fatal_log.py" 42 "3.8.10") "context" =
      some ("script=" ++ "trigger_fatal_log.py" ++ ", " ++ "pid=" ++
        toString 42 ++ ", " ++ "python=" ++ "3.8.10") :=
  ⟨(c6_payload_shape "disk full" "PK" none none ⟨2024, 1, 2, 3, 4, 5⟩
      "trigger_fatal_log.py" 42 "3.8.10").2.2.2.2.1 rfl,
   (c6_payload_shape "disk full" "PK" none none ⟨2024, 1, 2, 3, 4, 5⟩
      "trigger_fatal_log.py" 42 "3.8.10").2.2.2.2.2.2.1 rfl⟩

/-- A metadata service answering 200 everywhere, whose PKCS7 body
carries surrounding whitespace. -/
def unstrippedNet : Net := fun r =>
  match r with
  | Request.imdsToken _ _ => HttpResult.response 200 ⟨"tok", none⟩
  | _ => HttpResult.response 200 ⟨" P7 \n", none⟩

/-- C3, counterexample to the claim as stated: on a successful fetch the
trigger script's `fetch_instance_identity` returns `response.text`
without `.strip()`, so a body with surrounding whitespace comes back
unstripped. -/
theorem c3_counterexample :
    (fetch_instance_identity unstrippedNet).1 = FetchOutcome.ok " P7 \n" ∧
    (fetch_instance_identity unstrippedNet).1 ≠
      FetchOutcome.ok (strip " P7 \n") := by
  refine ⟨rfl, ?_⟩
  decide

/-- C3 as amended: on a success status the trigger script's fetcher
returns the raw response body unmodified (no whitespace stripping),
while the auth test harness's fetcher (status exactly 200) returns the
body stripped of surrounding whitespace. -/
theorem c3_fetch_body_handling (net : Net) :
    (∀ s b, net (Request.imdsPkcs7 (get_imds_token net).1.token
        METADATA_TIMEOUT) = HttpResult.response s b → s < 400 →
      (fetch_instance_identity net).1 = FetchOutcome.ok b.text) ∧
    (∀ b, net (Request.harnessPkcs7 "aws-cli/2.0" 2) =
        HttpResult.response 200 b →
      (fetch_ec2_identity true net).1 = some (strip b.text)) := by
  constructor
  · intro s b hn hs
    have hres : (fetch_instance_identity net).1 =
        match net (Request.imdsPkcs7 (get_imds_token net).1.token
          METADATA_TIMEOUT) with
        | .response s b =>
          if s < 400 then FetchOutcome.ok b.text else FetchOutcome.metadataError
        | .timeout => FetchOutcome.metadataUnavailable
        | .connectionError => FetchOutcome.metadataError
        | .otherError _ => FetchOutcome.metadataError := rfl
    rw [hres, hn]
    simp [hs]
  · intro b hn
    simp [fetch_ec2_identity, hn]

/-- Witness for C3: the trigger fetcher surfaces `" P7 \n"` as-is while
the harness fetcher strips it to `"P7"` on the same responses. -/
theorem c3_fetch_body_handling_witness :
    (fetch_instance_identity unstrippedNet).1 = FetchOutcome.ok " P7 \n" ∧
    (fetch_ec2_identity true unstrippedNet).1 = some "P7" :=
  ⟨(c3_fetch_body_handling unstrippedNet).1 200 ⟨" P7 \n", none⟩ rfl
      (by decide),
   ((c3_fetch_body_handling unstrippedNet).2 ⟨" P7 \n", none⟩ rfl).trans
      (by decide)⟩

/-- A metadata service refusing connections (not a timeout). -/
def refusedNet : Net := fun _ => HttpResult.connectionError

/-- C4, counterexample to the claim as stated: a connection-refused
error on the PKCS7 fetch lands in the generic
`except requests.exceptions.RequestException` handler (the
`MetadataError` kind), not in the `Timeout` handler that prints the
"Are you running on an EC2 instance?" (`MetadataUnavailable`) message. -/
theorem c4_counterexample :
    (fetch_instance_identity refusedNet).1 = FetchOutcome.metadataError ∧
    (fetch_instance_identity refusedNet).1 ≠
      FetchOutcome.metadataUnavailable := by
  refine ⟨rfl, ?_⟩
  decide

/-- C4 as amended: the fetch is classified `MetadataUnavailable` exactly
when the PKCS7 request raises `Timeout` (which includes connect
timeouts); every other failure — a non-timeout connection error such as
connection refused, a non-success HTTP status, or any other transport
error — is the generic `MetadataError` kind. -/
theorem c4_failure_classification (net : Net) :
    ((fetch_instance_identity net).1 = FetchOutcome.metadataUnavailable ↔
      net (Request.imdsPkcs7 (get_imds_token net).1.token METADATA_TIMEOUT) =
        HttpResult.timeout) ∧
    (net (Request.imdsPkcs7 (get_imds_token net).1.token METADATA_TIMEOUT) =
        HttpResult.connectionError →
      (fetch_instance_identity net).1 = FetchOutcome.metadataError) ∧
    (∀ s b, net (Request.imdsPkcs7 (get_imds_token net).1.token
        METADATA_TIMEOUT) = HttpResult.response s b → 400 ≤ s →
      (fetch_instance_identity net).1 = FetchOutcome.metadataError) ∧
    (∀ m, net (Request.imdsPkcs7 (get_imds_token net).1.token
        METADATA_TIMEOUT) = HttpResult.otherError m →
      (fetch_instance_identity net).1 = FetchOutcome.metadataError) := by
  have hres : (fetch_instance_identity net).1 =
      match net (Request.imdsPkcs7 (get_imds_token net).1.token
        METADATA_TIMEOUT) with
      | .response s b =>
        if s < 400 then FetchOutcome.ok b.text else FetchOutcome.metadataError
      | .timeout => FetchOutcome.metadataUnavailable
      | .connectionError => FetchOutcome.metadataError
      | .otherError _ => FetchOutcome.metadataError := rfl
  refine ⟨?_, ?_, ?_, ?_⟩
  · rw [hres]
    rcases hn : net (Request.imdsPkcs7 (get_imds_token net).1.token
      METADATA_TIMEOUT) with ⟨s, b⟩ | _ | _ | m <;> simp [hn]
    split_ifs <;> simp
  · intro hn
    rw [hres, hn]
  · intro s b hn hs
    rw [hres, hn]
    simp [Nat.not_lt.mpr hs]
  · intro m hn
    rw [hres, hn]

/-- Witness for C4: a timing-out metadata service is the
`MetadataUnavailable` kind, a connection-refusing one the generic
`MetadataError` kind. -/
theorem c4_failure_classification_witness :
    (fetch_instance_identity (fun _ => HttpResult.timeout)).1 =
      FetchOutcome.metadataUnavailable ∧
    (fetch_instance_identity refusedNet).1 = FetchOutcome.metadataError :=
  ⟨(c4_failure_classification (fun _ => HttpResult.timeout)).1.mpr rfl,
   (c4_failure_classification refusedNet).2.1 rfl⟩

/-- A backend that answers 200 with a body that is not valid JSON. -/
def badJsonNet : Net := fun _ => HttpResult.response 200 ⟨"not json", none⟩

/-- C1, counterexample to the claim as stated: a 200 response whose body
is not valid JSON makes `response.json()` raise; the exception is a
`RequestException` (requests ≥ 2.27 `JSONDecodeError`), caught by the
outer handler, and the send is reported as a failure even though the
status was exactly 200 — so success is not equivalent to status 200. -/
theorem c1_counterexample :
    badJsonNet (Request.post "http://e"
      (build_payload "disk full" "PK7" none none ⟨2024, 1, 2, 3, 4, 5⟩
        "trigger_fatal_log.py" 42 "3.8.10") 10) =
      HttpResult.response 200 ⟨"not json", none⟩ ∧
    send_success (send_fatal_log "http://e"
      (build_payload "disk full" "PK7" none none ⟨2024, 1, 2, 3, 4, 5⟩
        "trigger_fatal_log.py" 42 "3.8.10") badJsonNet).1 = false ∧
    (send_fatal_log "http://e"
      (build_payload "disk full" "PK7" none none ⟨2024, 1, 2, 3, 4, 5⟩
        "trigger_fatal_log.py" 42 "3.8.10") badJsonNet).1 =
      SendOutcome.requestFailure "json-decode-error" :=
  ⟨rfl, rfl, rfl⟩

/-- C1 as amended: exactly one POST is issued per send (no retry); the
send succeeds iff the response has status exactly 200 and a JSON body,
in which case the body's `status` and `message` fields are surfaced;
a non-200 status is a failure surfacing the body's `message` field (or
the raw body text when not JSON); a timeout, a transport error, and a
200 response with an unparseable body are failures surfacing the
exception; and under a resolved endpoint and a fetched identity the
process exit code is 0 on send success and 1 on send failure. -/
theorem c1_send_semantics (ep : String) (pl : JsonObj) (net : Net) :
    (send_fatal_log ep pl net).2 = [Request.post ep pl 10] ∧
    (send_success (send_fatal_log ep pl net).1 = true ↔
      ∃ b j, net (Request.post ep pl 10) = HttpResult.response 200 b ∧
        b.json = some j) ∧
    (∀ b j, net (Request.post ep pl 10) = HttpResult.response 200 b →
      b.json = some j →
      (send_fatal_log ep pl net).1 =
        SendOutcome.success (jget j "status") (jget j "message")) ∧
    (∀ s b j, net (Request.post ep pl 10) = HttpResult.response s b →
      s ≠ 200 → b.json = some j →
      (send_fatal_log ep pl net).1 =
        SendOutcome.httpFailure s (jgetD j "message" "Unknown error")) ∧
    (∀ s b, net (Request.post ep pl 10) = HttpResult.response s b →
      s ≠ 200 → b.json = none →
      (send_fatal_log ep pl net).1 = SendOutcome.httpFailure s b.text) ∧
    (net (Request.post ep pl 10) = HttpResult.timeout →
      (send_fatal_log ep pl net).1 = SendOutcome.timeoutFailure) ∧
    (net (Request.post ep pl 10) = HttpResult.connectionError →
      (send_fatal_log ep pl net).1 =
        SendOutcome.requestFailure "connection-error") ∧
    (∀ m, net (Request.post ep pl 10) = HttpResult.otherError m →
      (send_fatal_log ep pl net).1 = SendOutcome.requestFailure m) ∧
    (∀ fs env argv now sn pid pv p,
      _load_api_endpoint fs env = some ep → ep ≠ "" →
      ¬ argv.length < 2 →
      (fetch_instance_identity net).1 = FetchOutcome.ok p → p ≠ "" →
      pl = build_payload (argv.getD 1 "") p
        (if argv.length > 2 then some (argv.getD 2 "") else none)
        (if argv.length > 3 then some (argv.getD 3 "") else none)
        now sn pid pv →
      (trigger_main fs env argv net now sn pid pv).1 =
        (if send_success (send_fatal_log ep pl net).1 then 0 else 1)) := by
  have hsend : (send_fatal_log ep pl net).1 =
      match net (Request.post ep pl 10) with
      | .response status body =>
        if status = 200 then
          match body.json with
          | some j => SendOutcome.success (jget j "status") (jget j "message")
          | none => SendOutcome.requestFailure "json-decode-error"
        else
          match body.json with
          | some j => SendOutcome.httpFailure status (jgetD j "message" "Unknown error")
          | none => SendOutcome.httpFailure status body.text
      | .timeout => SendOutcome.timeoutFailure
      | .connectionError => SendOutcome.requestFailure "connection-error"
      | .otherError m => SendOutcome.requestFailure m := rfl
  refine ⟨rfl, ?_, ?_, ?_, ?_, ?_, ?_, ?_, ?_⟩
  · rw [hsend]
    rcases hn : net (Request.post ep pl 10) with ⟨s, b⟩ | _ | _ | m <;>
      simp [hn, send_success]
    by_cases hs : s = 200 <;> cases hj : b.json <;>
      simp [hs, hj, send_success]
  · intro b j hn hj
    rw [hsend, hn]
    simp [hj]
  · intro s b j hn hs hj
    rw [hsend, hn]
    simp [hs, hj]
  · intro s b hn hs hj
    rw [hsend, hn]
    simp [hs, hj]
  · intro hn
    rw [hsend, hn]
  · intro hn
    rw [hsend, hn]
  · intro m hn
    rw [hsend, hn]
  · intro fs env argv now sn pid pv p hep hne hargv hfetch hp hpl
    simp only [trigger_main, hep]
    rw [if_neg hne, if_neg hargv]
    simp only [hfetch]
    rw [if_neg hp, ← hpl]

/-- A live metadata service plus a backend that accepts the log. -/
def okNet : Net := fun r =>
  match r with
  | Request.post _ _ _ =>
    HttpResult.response 200 ⟨"resp", some [("status", "ok"), ("message", "logged")]⟩
  | _ => HttpResult.response 200 ⟨"PK7", none⟩

/-- Witness for C1: the spec's end-to-end success scenario — backend
replies `200 {status: ok, message: logged}`, the send surfaces both
fields, and the process exits 0. -/
theorem c1_send_semantics_witness :
    (send_fatal_log "http://e"
      (build_payload "disk full" "PK7" none none ⟨2024, 1, 2, 3, 4, 5⟩
        "trigger_fatal_log.py" 42 "3.8.10") okNet).1 =
      SendOutcome.success (some "ok") (some "logged") ∧
    (trigger_main (fun _ => none) (some "http://e") ["prog", "disk full"]
      okNet ⟨2024, 1, 2, 3, 4, 5⟩ "trigger_fatal_log.py" 42 "3.8.10").1 = 0 := by
  constructor
  · exact ((c1_send_semantics "http://e"
      (build_payload "disk full" "PK7" none none ⟨2024, 1, 2, 3, 4, 5⟩
        "trigger_fatal_log.py" 42 "3.8.10") okNet).2.2.1
      ⟨"resp", some [("status", "ok"), ("message", "logged")]⟩
      [("status", "ok"), ("message", "logged")] rfl rfl).trans (by decide)
  · exact ((c1_send_semantics "http://e"
      (build_payload "disk full" "PK7" none none ⟨2024, 1, 2, 3, 4, 5⟩
        "trigger_fatal_log.py" 42 "3.8.10") okNet).2.2.2.2.2.2.2.2
      (fun _ => none) (some "http://e") ["prog", "disk full"]
      ⟨2024, 1, 2, 3, 4, 5⟩ "trigger_fatal_log.py" 42 "3.8.10" "PK7"
      rfl (by decide) (by decide) rfl (by decide) rfl).trans (by decide)

end OC
